import Mathlib

/-!
Verification of the sparse_framework cluster node runtime, shallowly embedded
from the Python source. Bytes are modelled as lists of natural numbers,
Python object identities as tagged references, and stateful methods as
explicit state-passing functions. Fallible code returns Except values.
-/

namespace SparseFramework

/-! ### Transport framing, from sparse_framework/protocols.py

The wire frame is a 1-byte type tag, an 8-byte big-endian length and the
payload. The receiver state mirrors the fields data_buffer, receiving_data,
data_type and data_size of SparseTransportProtocol. -/

/-- Eight-byte big-endian encoding of a length, as written by struct.pack with
format !sQ in send_payload and send_file. -/
def beBytes (n : Nat) : List Nat :=
  [n / 256 ^ 7 % 256, n / 256 ^ 6 % 256, n / 256 ^ 5 % 256, n / 256 ^ 4 % 256,
   n / 256 ^ 3 % 256, n / 256 ^ 2 % 256, n / 256 % 256, n % 256]

/-- Big-endian value of a byte list, as read by struct.unpack with format !sQ. -/
def beVal (l : List Nat) : Nat :=
  l.foldl (fun a b => 256 * a + b) 0

/-- Decoding of a 9-byte header into the type tag and the payload size. -/
def unpackHeader (h : List Nat) : Nat × Nat :=
  (h.headD 0, beVal (h.drop 1))

/-- Receiver-side state of SparseTransportProtocol: the byte buffer and the
header fields of the message currently being assembled. -/
structure TransportState where
  buffer : List Nat
  receivingData : Bool
  dataType : Option Nat
  dataSize : Nat
deriving DecidableEq, Repr

/-- State set up by the constructor and by clear_buffer. -/
def initTransport : TransportState :=
  ⟨[], false, none, 0⟩

/-- Frame produced by send_payload and send_file: type tag, 8-byte big-endian
length, then the payload bytes. -/
def packFrame (t : Nat) (payload : List Nat) : List Nat :=
  t :: beBytes payload.length ++ payload

/-- Second half of data_received: once the payload bytes for the current header
have been accumulated, extract one message, re-reading the next header from the
trailing bytes when any remain. A struct.unpack on fewer than 9 bytes raises,
which is modelled as an error result. At most one message is delivered per
call, exactly as in the source. -/
def processBuffer (dt : Option Nat) (dsize : Nat) (buf : List Nat) :
    Except Unit (TransportState × Option (Nat × List Nat)) :=
  if dsize ≤ buf.length then
    let payloadBytes := buf.take dsize
    let rest := buf.drop dsize
    if rest.length = 0 then
      .ok (initTransport, some (dt.getD 0, payloadBytes))
    else if rest.length < 9 then
      .error ()
    else
      let h := unpackHeader (rest.take 9)
      .ok (⟨rest.drop 9, true, some h.1, h.2⟩, some (dt.getD 0, payloadBytes))
  else
    .ok (⟨buf, true, dt, dsize⟩, none)

/-- SparseTransportProtocol.data_received. When no message is in progress the
first 9 bytes of the chunk are unpacked as a header (raising if the chunk is
shorter than 9 bytes); otherwise the whole chunk is payload. The delivered
message, when any, is the pair passed to message_received. -/
def dataReceived (s : TransportState) (data : List Nat) :
    Except Unit (TransportState × Option (Nat × List Nat)) :=
  if s.receivingData then
    processBuffer s.dataType s.dataSize (s.buffer ++ data)
  else
    if data.length < 9 then
      .error ()
    else
      let h := unpackHeader (data.take 9)
      processBuffer (some h.1) h.2 (s.buffer ++ data.drop 9)

/-- Object frames carry the type tag o, which is byte 111. -/
def objTag : Nat := 111

/-- C1. The claim states that the framed encoding of any payload is decoded
identically under arbitrary splits, including inside the 9-byte header, and
that several complete messages in one chunk are each delivered. The code
delivers a whole unsplit frame, but a chunk shorter than 9 bytes while no
message is in progress is passed straight to struct.unpack, which raises, so a
split inside the header loses the message; and when two complete frames arrive
in one call only the first is delivered, the second staying buffered. This
theorem records all three behaviours on the payload 1,2,3 split at byte 4 and
followed by a second frame with payload 7,7. -/
theorem c1_framing_split_header_fails :
    dataReceived initTransport (packFrame objTag [1, 2, 3]) =
      .ok (initTransport, some (objTag, [1, 2, 3])) ∧
    dataReceived initTransport ((packFrame objTag [1, 2, 3]).take 4) = .error () ∧
    dataReceived initTransport (packFrame objTag [1, 2, 3] ++ packFrame objTag [7, 7]) =
      .ok (⟨[7, 7], true, some objTag, 2⟩, some (objTag, [1, 2, 3])) :=
  ⟨rfl, rfl, rfl⟩

/-! ### Object identities

Python compares protocol objects by identity. A cluster connection exposes one
ClusterProtocol object together with per-connection sub-protocol objects; these
are pairwise distinct objects even when they belong to the same peer. -/

/-- Reference to a protocol object, tagged by the peer it belongs to and by
which of the distinct Python objects of that connection it denotes. -/
inductive ProtoRef where
  | clusterMain (peer : Nat)
  | moduleReceiver (peer : Nat)
  | dataSender (peer : Nat)
deriving DecidableEq, Repr

/-! ### Streams and the stream repository, from stream_api.py and
stream/stream_repository.py -/

/-- State of one SparseStream: its two identifiers, the subscriber set
(protocols), the local forks (operators, as pairs of an optional operator id
and the index of the output stream) and the chained streams (chains, as
repository indices). Sets are modelled as duplicate-free lists in insertion
order. -/
structure PStream where
  streamId : String
  streamAlias : Option String
  protocols : List ProtoRef
  operators : List (Option Nat × Nat)
  chains : List Nat
deriving DecidableEq, Repr

/-- Stream constructed by SparseStream.__init__: the id defaults to a fresh
uuid only when the stream_id argument is None, and all three connection sets
start empty. -/
def newStream (sid salias : Option String) (fresh : String) : PStream :=
  ⟨sid.getD fresh, salias, [], [], []⟩

/-- Python truthiness of an optional string: None and the empty string are
falsy. -/
def pyTruthy : Option String → Bool
  | none => false
  | some s => !s.isEmpty

/-- The Python expression a or b. -/
def pyOr (a b : Option String) : Option String :=
  if pyTruthy a then a else b

/-- SparseStream.matches_selector: the selector equals the alias or the id. -/
def matchesSelector (s : PStream) (sel : String) : Bool :=
  some sel == s.streamAlias || sel == s.streamId

/-- Index of the first stream matching a selector, mirroring the iteration in
StreamRepository.get_stream. -/
def findStreamIdx (repo : List PStream) (sel : String) : Option Nat :=
  repo.findIdx? (fun s => matchesSelector s sel)

/-- StreamRepository.get_stream: the single effective selector is
stream_alias or stream_id; when it is not None and matches an existing stream
that stream is returned, otherwise a new stream is appended. The result is the
updated repository together with the index of the returned stream. -/
def getStream (repo : List PStream) (sid salias : Option String) (fresh : String) :
    List PStream × Nat :=
  match pyOr salias sid with
  | some sel =>
    match findStreamIdx repo sel with
    | some i => (repo, i)
    | none => (repo ++ [newStream sid salias fresh], repo.length)
  | none => (repo ++ [newStream sid salias fresh], repo.length)

theorem getStream_of_findStreamIdx (repo : List PStream) (sid salias : Option String)
    (fresh sel : String) (i : Nat) (hsel : pyOr salias sid = some sel)
    (hfind : findStreamIdx repo sel = some i) :
    getStream repo sid salias fresh = (repo, i) := by
  simp only [getStream, hsel, hfind]

theorem pyOr_some_left {y : String} (h : y ≠ "") (b : Option String) :
    pyOr (some y) b = some y := by
  simp only [pyOr, pyTruthy, if_pos]
  simp [String.isEmpty_iff, h]

/-- C2. The claim states that get_stream returns an existing stream whenever
any provided selector matches it. In the code only the single effective
selector stream_alias or stream_id is consulted, so the claim fails when a
matching stream_id is shadowed by a non-matching stream_alias; this theorem
proves the amended statement: if the effective selector (the alias when it is
provided and non-empty, otherwise the id) first matches the stream at index i,
get_stream returns that stream and creates nothing, and consequently
get_stream by id x followed by get_stream by alias y, where both selectors
first-match the same stream, returns the same instance both times. -/
theorem c2_get_stream_effective_selector :
    (∀ (repo : List PStream) (sid salias : Option String) (fresh sel : String) (i : Nat),
       pyOr salias sid = some sel → findStreamIdx repo sel = some i →
       getStream repo sid salias fresh = (repo, i))
  ∧ (∀ (repo : List PStream) (x y f₁ f₂ : String) (i : Nat), y ≠ "" →
       findStreamIdx repo x = some i → findStreamIdx repo y = some i →
       getStream repo (some x) none f₁ = (repo, i) ∧
       getStream repo none (some y) f₂ = (repo, i)) := by
  refine ⟨fun repo sid salias fresh sel i hsel hfind =>
    getStream_of_findStreamIdx repo sid salias fresh sel i hsel hfind, ?_⟩
  intro repo x y f₁ f₂ i hy hx hyi
  constructor
  · exact getStream_of_findStreamIdx repo (some x) none f₁ x i rfl hx
  · exact getStream_of_findStreamIdx repo none (some y) f₂ y i (pyOr_some_left hy none) hyi

/-- C2 witness: a repository with a single stream of id i and alias a, looked
up first by id and then by alias, yields the same stream both times and the
repository is unchanged. -/
theorem c2_get_stream_effective_selector_witness :
    getStream [⟨"i", some "a", [], [], []⟩] (some "i") none "u" =
      ([⟨"i", some "a", [], [], []⟩], 0) ∧
    getStream [⟨"i", some "a", [], [], []⟩] none (some "a") "u" =
      ([⟨"i", some "a", [], [], []⟩], 0) :=
  c2_get_stream_effective_selector.2 [⟨"i", some "a", [], [], []⟩] "i" "a" "u" "u" 0
    (by decide) (by decide) (by decide)

/-- C2 counterexample: the repository holds one stream with id i and no alias.
The provided selector id i matches that stream, yet get_stream called with
both id i and alias a consults only the alias and creates a second stream, so
the claim as stated is false. -/
theorem c2_counterexample :
    matchesSelector ⟨"i", none, [], [], []⟩ "i" = true ∧
    (getStream [⟨"i", none, [], [], []⟩] (some "i") (some "a") "u").1.length = 2 :=
  ⟨by decide, by decide⟩

/-! ### Stream fan-out, from SparseStream.emit in stream_api.py

The node is modelled as a world mapping stream ids to stream records. Emit is
given recursion fuel because Python recursion on chained streams only
terminates on chain-acyclic worlds; with zero fuel a call does nothing, and
every theorem below holds for any strictly positive fuel. -/

/-- Mutable state of one stream as used by emit: the sequence counter and the
three fan-out sets, with operators as pairs of an operator and its output
stream. -/
structure StreamRec where
  seqNo : Nat
  ops : List (Nat × Nat)
  protos : List Nat
  chains : List Nat
deriving DecidableEq, Repr

/-- A world of streams indexed by stream id. -/
def World : Type := Nat → StreamRec

/-- Pointwise update of one stream record. -/
def updateWorld (w : World) (sid : Nat) (s : StreamRec) : World :=
  fun x => if x = sid then s else w x

/-- Observable actions performed by emit, in execution order: a buffered
operator call via runtime.call_operator, a data_tuple frame to a subscribed
protocol, and the final increment of the sequence counter. -/
inductive EmitEvent where
  | callOperator (op outStream src seqNo tup : Nat)
  | sendDataTuple (proto src tup : Nat)
  | incrSeq (sid : Nat)
deriving DecidableEq, Repr

/-- Sequential emission over a list of chained streams, threading the world
left to right, as the final for-loop of emit does. -/
def emitList (f : World → Nat → World × List EmitEvent) :
    List Nat → World → World × List EmitEvent
  | [], w => (w, [])
  | c :: cs, w =>
    let r₁ := f w c
    let r₂ := emitList f cs r₁.1
    (r₂.1, r₁.2 ++ r₂.2)

/-- SparseStream.emit: enqueue the tuple to every local operator fork, send it
to every subscribed protocol, recursively emit on every chained stream, and
finally increment the sequence counter of this stream. -/
def emit (fuel : Nat) (w : World) (sid tup : Nat) : World × List EmitEvent :=
  match fuel with
  | 0 => (w, [])
  | fuel' + 1 =>
    let s := w sid
    let r := emitList (fun w' c => emit fuel' w' c tup) s.chains w
    (updateWorld r.1 sid { r.1 sid with seqNo := (r.1 sid).seqNo + 1 },
     s.ops.map (fun p => EmitEvent.callOperator p.1 p.2 sid s.seqNo tup)
       ++ s.protos.map (fun p => EmitEvent.sendDataTuple p sid tup)
       ++ r.2 ++ [EmitEvent.incrSeq sid])

/-- Reachability along chain edges: the streams whose emit is transitively
triggered by emitting on the first stream. -/
inductive ChainReach (w : World) : Nat → Nat → Prop
  | step {a b : Nat} : b ∈ (w a).chains → ChainReach w a b
  | tail {a b c : Nat} : ChainReach w a b → c ∈ (w b).chains → ChainReach w a c

theorem chainReach_of_mem_chains {w : World} {a c x : Nat} (hc : c ∈ (w a).chains)
    (h : ChainReach w c x) : ChainReach w a x := by
  induction h with
  | step hb => exact .tail (.step hc) hb
  | tail _ hb ih => exact .tail ih hb

theorem emit_chains_eq : ∀ (fuel : Nat) (w : World) (sid tup x : Nat),
    ((emit fuel w sid tup).1 x).chains = (w x).chains := by
  intro fuel
  induction fuel with
  | zero => intro w sid tup x; rfl
  | succ n ih =>
    have hlist : ∀ (cs : List Nat) (w : World) (tup x : Nat),
        ((emitList (fun w' c => emit n w' c tup) cs w).1 x).chains = (w x).chains := by
      intro cs
      induction cs with
      | nil => intro w tup x; rfl
      | cons c cs ihc => intro w tup x; simp only [emitList]; rw [ihc, ih]
    intro w sid tup x
    simp only [emit, updateWorld]
    by_cases hx : x = sid
    · rw [if_pos hx, hx]
      exact hlist (w sid).chains w tup sid
    · rw [if_neg hx]
      exact hlist (w sid).chains w tup x

theorem chainReach_congr {w w' : World} (h : ∀ y, (w' y).chains = (w y).chains)
    {a b : Nat} (hr : ChainReach w' a b) : ChainReach w a b := by
  induction hr with
  | step hb => exact .step (h _ ▸ hb)
  | tail _ hb ih => exact .tail ih (h _ ▸ hb)

theorem emitList_untouched (fuel tup : Nat)
    (ihP : ∀ (w : World) (sid x : Nat), x ≠ sid → ¬ ChainReach w sid x →
      (emit fuel w sid tup).1 x = w x) :
    ∀ (cs : List Nat) (w : World) (x : Nat),
      (∀ c ∈ cs, x ≠ c ∧ ¬ ChainReach w c x) →
      (emitList (fun w' c => emit fuel w' c tup) cs w).1 x = w x := by
  intro cs
  induction cs with
  | nil => intro w x _; rfl
  | cons c cs ih =>
    intro w x h
    simp only [emitList]
    have hc := h c (List.mem_cons_self c cs)
    have hrest : ∀ c' ∈ cs, x ≠ c' ∧ ¬ ChainReach (emit fuel w c tup).1 c' x := by
      intro c' hc'
      have hcc := h c' (List.mem_cons_of_mem c hc')
      exact ⟨hcc.1, fun hr =>
        hcc.2 (chainReach_congr (fun y => emit_chains_eq fuel w c tup y) hr)⟩
    rw [ih (emit fuel w c tup).1 x hrest, ihP w c x hc.1 hc.2]

theorem emit_untouched : ∀ (fuel : Nat) (w : World) (sid tup x : Nat), x ≠ sid →
    ¬ ChainReach w sid x → (emit fuel w sid tup).1 x = w x := by
  intro fuel
  induction fuel with
  | zero => intro w sid tup x _ _; rfl
  | succ n ih =>
    intro w sid tup x hx hr
    simp only [emit, updateWorld]
    rw [if_neg hx]
    apply emitList_untouched n tup (fun w' sid' x' => ih w' sid' tup x')
    intro c hc
    refine ⟨fun hxc => hr ?_, fun hcx => hr (chainReach_of_mem_chains hc hcx)⟩
    rw [hxc]
    exact ChainReach.step hc

/-- C3. One call of emit on stream S increments the sequence counter of S by
exactly one: the chained streams reached recursively leave the record of S
unchanged, and the event trace of the call is the local operator calls, then
the sends to subscribed protocols, then the trace of the chained emissions,
and finally the single increment of S, in this order. The hypothesis rules out
a chain cycle back to S, on which the Python recursion would not return. -/
theorem c3_emit_increments_once (fuel : Nat) (w : World) (sid tup : Nat)
    (h : ¬ ChainReach w sid sid) :
    ((emit (fuel + 1) w sid tup).1 sid).seqNo = (w sid).seqNo + 1 ∧
    (emitList (fun w' c => emit fuel w' c tup) (w sid).chains w).1 sid = w sid ∧
    (emit (fuel + 1) w sid tup).2 =
      (w sid).ops.map (fun p => EmitEvent.callOperator p.1 p.2 sid (w sid).seqNo tup)
        ++ (w sid).protos.map (fun p => EmitEvent.sendDataTuple p sid tup)
        ++ (emitList (fun w' c => emit fuel w' c tup) (w sid).chains w).2
        ++ [EmitEvent.incrSeq sid] := by
  have hB : (emitList (fun w' c => emit fuel w' c tup) (w sid).chains w).1 sid = w sid := by
    apply emitList_untouched fuel tup (fun w' sid' x' => emit_untouched fuel w' sid' tup x')
    intro c hc
    refine ⟨fun hsc => h ?_, fun hcs => h (chainReach_of_mem_chains hc hcs)⟩
    have hstep : ChainReach w sid c := ChainReach.step hc
    rwa [← hsc] at hstep
  refine ⟨?_, hB, rfl⟩
  simp only [emit, updateWorld, if_true]
  rw [hB]

/-- C3 witness world: stream 0 chains to stream 1 and stream 1 has no
chains, so no chain cycle reaches back to stream 0. -/
def exWorld : World := fun n =>
  if n = 0 then ⟨5, [(10, 20)], [7], [1]⟩
  else if n = 1 then ⟨3, [], [8], []⟩
  else ⟨0, [], [], []⟩

theorem exWorld_not_self_reach : ¬ ChainReach exWorld 0 0 := by
  have key : ∀ a b, ChainReach exWorld a b → a = 0 → b = 1 := by
    intro a b hr
    induction hr with
    | step hb => intro ha; subst ha; simpa [exWorld] using hb
    | tail hr hb ih =>
      intro ha
      have hb1 := ih ha
      subst hb1
      simp [exWorld] at hb
  intro h
  exact absurd (key 0 0 h rfl) (by decide)

/-- C3 witness: on the concrete two-stream world, one emit on stream 0
increments its counter from 5 to 6, the chained emission on stream 1 leaves
stream 0 untouched, and the trace is operator call, protocol send, chained
trace, increment. -/
theorem c3_emit_increments_once_witness :
    ((emit 2 exWorld 0 99).1 0).seqNo = (exWorld 0).seqNo + 1 ∧
    (emitList (fun w' c => emit 1 w' c 99) (exWorld 0).chains exWorld).1 0 = exWorld 0 ∧
    (emit 2 exWorld 0 99).2 =
      (exWorld 0).ops.map (fun p => EmitEvent.callOperator p.1 p.2 0 (exWorld 0).seqNo 99)
        ++ (exWorld 0).protos.map (fun p => EmitEvent.sendDataTuple p 0 99)
        ++ (emitList (fun w' c => emit 1 w' c 99) (exWorld 0).chains exWorld).2
        ++ [EmitEvent.incrSeq 0] :=
  c3_emit_increments_once 1 exWorld 0 99 exWorld_not_self_reach

/-! ### Operator input buffering, from runtime/runtime.py and
runtime/io_buffer.py -/

/-- One quadruple of the operator input buffer: the staged tuple, the source
stream, the captured sequence number and the data determining the result
callback closure (the callback captures the source, the sequence number and
the output stream). -/
structure BufEntry where
  tup : Nat
  sourceId : Nat
  seqNo : Nat
  outId : Nat
deriving DecidableEq, Repr

/-- SparseIOBuffer.buffer_input: under the lock, read the current length as
the index, append the quadruple, and return the index. -/
def bufferInput (buf : List BufEntry) (e : BufEntry) : List BufEntry × Nat :=
  (buf ++ [e], buf.length)

/-- The state touched by SparseRuntime.call_operator for one operator: its
input buffer and the node-wide task queue of enqueued operators. -/
structure CallOpState where
  inputBuffer : List BufEntry
  taskQueue : List Nat
deriving DecidableEq, Repr

/-- SparseRuntime.call_operator: buffer the input and enqueue the operator on
the task queue when batching is disabled or the returned index is zero. -/
def callOperator (useBatching : Bool) (opId : Nat) (st : CallOpState) (e : BufEntry) :
    CallOpState :=
  let r := bufferInput st.inputBuffer e
  { inputBuffer := r.1
    taskQueue := if !useBatching || r.2 == 0 then st.taskQueue ++ [opId] else st.taskQueue }

/-- C4. buffer_input appends the quadruple and returns the post-append length
minus one, and call_operator enqueues the operator exactly when batching is
disabled or that index is zero; in particular with batching enabled a
non-empty buffer absorbs further inputs without a new enqueue. -/
theorem c4_call_operator_buffering (useBatching : Bool) (opId : Nat) (st : CallOpState)
    (e : BufEntry) :
    (bufferInput st.inputBuffer e).1 = st.inputBuffer ++ [e] ∧
    (bufferInput st.inputBuffer e).2 + 1 = (bufferInput st.inputBuffer e).1.length ∧
    (callOperator useBatching opId st e).inputBuffer = st.inputBuffer ++ [e] ∧
    ((callOperator useBatching opId st e).taskQueue = st.taskQueue ++ [opId] ↔
      (useBatching = false ∨ st.inputBuffer = [])) ∧
    (useBatching = true → st.inputBuffer ≠ [] →
      (callOperator useBatching opId st e).taskQueue = st.taskQueue) := by
  obtain ⟨buf, q⟩ := st
  refine ⟨rfl, by simp [bufferInput], rfl, ?_, ?_⟩ <;>
    cases useBatching <;> rcases buf with _ | ⟨b, buf⟩ <;>
      simp [callOperator, bufferInput]

/-- C4 witness: with batching enabled and one entry already buffered, a
further call_operator leaves the task queue unchanged. -/
theorem c4_call_operator_buffering_witness :
    (callOperator true 3 ⟨[⟨1, 2, 3, 4⟩], [9]⟩ ⟨5, 6, 7, 8⟩).taskQueue = [9] :=
  (c4_call_operator_buffering true 3 ⟨[⟨1, 2, 3, 4⟩], [9]⟩ ⟨5, 6, 7, 8⟩).2.2.2.2 rfl
    (by decide)

/-! ### Module distribution, from module/protocols.py and
cluster_orchestrator.py

The orchestrator holds ClusterConnection records whose protocol field is the
ClusterProtocol object of the connection. ModuleReceiverProtocol.file_received
passes itself, the per-connection receiver sub-protocol object, as the source
argument of distribute_module. -/

/-- ClusterOrchestrator.distribute_module: initiate a transfer on every
connection whose protocol object differs from the source object. The result
lists the initiated transfers as pairs of connection protocol and module
name. -/
def distributeModule (connections : List ProtoRef) (source : ProtoRef)
    (moduleName : String) : List (ProtoRef × String) :=
  (connections.filter (fun c => c ≠ source)).map (fun c => (c, moduleName))

/-- ModuleReceiverProtocol.file_received on the connection of peer selfPeer:
store the received module in the repository, then distribute it, passing the
receiver sub-protocol object itself as the source. -/
def fileReceived (connections : List ProtoRef) (selfPeer : Nat) (moduleName : String)
    (modules : List String) : List String × List (ProtoRef × String) :=
  (modules ++ [moduleName],
   distributeModule connections (ProtoRef.moduleReceiver selfPeer) moduleName)

/-- C5. The claim says a received module is stored and re-broadcast to every
peer except the sender. The module is stored, but the source passed to
distribute_module is the ModuleReceiverProtocol sub-object, which is never
equal to any ClusterConnection protocol, so the inequality filter excludes
nothing: with the sender as the only connected peer, the transfer is initiated
straight back to the sender. -/
theorem c5_module_echoed_to_sender :
    (fileReceived [ProtoRef.clusterMain 0] 0 "m" []).1 = ["m"] ∧
    (fileReceived [ProtoRef.clusterMain 0] 0 "m" []).2 = [(ProtoRef.clusterMain 0, "m")] :=
  ⟨rfl, by decide⟩

/-! ### Stream migration and the subscriber set, from stream_api.py,
stream/stream_router.py and cluster_orchestrator.py -/

/-- SparseStream.subscribe: add a protocol to the subscriber set. -/
def streamSubscribe (s : PStream) (p : ProtoRef) : PStream :=
  if p ∈ s.protocols then s else { s with protocols := s.protocols ++ [p] }

/-- The removal in StreamRouter.create_connector_stream and in
ClusterOrchestrator.distribute_stream: discard source from the subscriber set
when it is present. -/
def protoRemove (s : PStream) (p : ProtoRef) : PStream :=
  if p ∈ s.protocols then { s with protocols := s.protocols.erase p } else s

/-- ClusterConnection.migrate_stream for the connection of the given peer:
send create_connector_stream for the stream and subscribe the stream-data
sender sub-protocol of the connection to the stream. The event records the
announced identifiers. -/
def migrateStream (s : PStream) (peer : Nat) : PStream × List (Nat × String × Option String) :=
  (streamSubscribe s (ProtoRef.dataSender peer), [(peer, s.streamId, s.streamAlias)])

/-- StreamRouter.create_connector_stream: intern the stream by the provided
selectors and remove the source, the ClusterProtocol object of the announcing
connection, from its subscriber set. -/
def createConnectorStream (streams : List PStream) (source : ProtoRef)
    (sid salias : Option String) (fresh : String) : List PStream × Nat :=
  let r := getStream streams sid salias fresh
  (r.1.set r.2 (protoRemove (r.1.getD r.2 (newStream none none fresh)) source), r.2)

/-- C6. The claim says the subscriber set of a stream never contains the peer
from which a create_connector_stream for it was received. The subscriber set
stores stream-data sender sub-protocol objects, while create_connector_stream
removes the ClusterProtocol object, which is never in the set: after peer 1 is
subscribed by migrate_stream and then announces the same stream, the removal
is a no-op and peer 1 stays subscribed, so it is sent back its own tuples. -/
theorem c6_source_peer_stays_subscribed :
    (migrateStream ⟨"s", some "raw", [], [], []⟩ 1).1 =
      ⟨"s", some "raw", [ProtoRef.dataSender 1], [], []⟩ ∧
    (createConnectorStream [⟨"s", some "raw", [ProtoRef.dataSender 1], [], []⟩]
        (ProtoRef.clusterMain 1) (some "s2") (some "raw") "u2").1 =
      [⟨"s", some "raw", [ProtoRef.dataSender 1], [], []⟩] :=
  ⟨by decide, by decide⟩

/-! ### Pipeline deployment, from runtime/runtime.py place_operator and
cluster_orchestrator.py deploy_pipelines

Exceptions that escape deploy_pipelines are modelled as error results carrying
the mutated state at the raise, since the Python mutations before the raise
persist. -/

/-- A value of the pipelines mapping: either a nested mapping or a list of
terminal stream selectors. -/
inductive PipeVal where
  | dict (entries : List (String × PipeVal))
  | leaves (sels : List String)

/-- The two exceptions deploy_pipelines can raise with a missing operator:
the AttributeError from reading the name of None inside connect_to_operator,
and the unbound read of the local variable output_stream. -/
inductive PyErr where
  | attributeError
  | unboundLocal
deriving DecidableEq, Repr

/-- Node state touched by deployment: the stream repository, the placed
operators of the runtime as pairs of id and name, and counters producing
fresh operator ids and fresh stream uuids. -/
structure DeployState where
  streams : List PStream
  operators : List (Nat × String)
  nextOp : Nat
  nextStream : Nat
deriving DecidableEq, Repr

/-- StreamRepository.get_stream against the deployment state, drawing the
uuid of a newly created stream from the fresh-name counter. -/
def repoGetStream (st : DeployState) (sid salias : Option String) : DeployState × Nat :=
  let r := getStream st.streams sid salias ("uuid-" ++ toString st.nextStream)
  if r.1.length = st.streams.length then ({ st with streams := r.1 }, r.2)
  else ({ st with streams := r.1, nextStream := st.nextStream + 1 }, r.2)

/-- SparseRuntime.place_operator: return the already placed operator of that
name if any; otherwise resolve the name through the module repository, given
as a list of modules with their exported factory names, placing a new
operator on success; on OperatorNotFoundError log a warning and return
None. -/
def placeOperator (moduleRepo : List (String × List String)) (st : DeployState)
    (name : String) : DeployState × Option Nat :=
  match st.operators.find? (fun o => o.2 == name) with
  | some o => (st, some o.1)
  | none =>
    if moduleRepo.any (fun m => name ∈ m.2) then
      ({ st with operators := st.operators ++ [(st.nextOp, name)], nextOp := st.nextOp + 1 },
       some st.nextOp)
    else (st, none)

/-- SparseStream.connect_to_operator on the stream at srcIdx: add the pair of
operator and output stream to the fork set, then read the name property of
the operator for the log line, which raises AttributeError when the operator
is None; the fork added before the raise persists. -/
def connectToOperator (st : DeployState) (srcIdx : Nat) (op : Option Nat) (outIdx : Nat) :
    Except (PyErr × DeployState) DeployState :=
  let s := st.streams.getD srcIdx (newStream none none "")
  let s' := if (op, outIdx) ∈ s.operators then s
            else { s with operators := s.operators ++ [(op, outIdx)] }
  let st' := { st with streams := st.streams.set srcIdx s' }
  match op with
  | none => .error (.attributeError, st')
  | some _ => .ok st'

/-- SparseStream.connect_to_stream on the stream at outIdx: chain the stream
at finalIdx downstream of it. -/
def connectToStream (st : DeployState) (outIdx finalIdx : Nat) : DeployState :=
  let s := st.streams.getD outIdx (newStream none none "")
  let s' := if finalIdx ∈ s.chains then s else { s with chains := s.chains ++ [finalIdx] }
  { st with streams := st.streams.set outIdx s' }

/-- The list arm of deploy_pipelines: for each leaf selector that names a
declared input stream, fetch it (a creating lookup, performed before the read
of output_stream) and chain it downstream of output_stream; reading
output_stream while it is unbound raises. Unknown leaves only log. -/
def connectLeaves (declared : List String) (outVar : Option Nat) :
    List String → DeployState → Except (PyErr × DeployState) DeployState
  | [], st => .ok st
  | sel :: rest, st =>
    if sel ∈ declared then
      let r := repoGetStream st (some sel) none
      match outVar with
      | none => .error (.unboundLocal, r.1)
      | some outIdx => connectLeaves declared outVar rest (connectToStream r.1 outIdx r.2)
    else
      connectLeaves declared outVar rest st

/-- ClusterOrchestrator.deploy_pipelines: walk the pipeline mapping with the
current source stream; keys naming declared streams resolve those streams,
other keys are placed as operators and, when a source exists, wired as
source to operator to a fresh output stream; nested mappings recurse with the
output stream as the new source, and lists chain terminal streams. The local
variable output_stream persists across loop iterations of one call and starts
unbound. Recursion fuel bounds the nesting depth; every run below uses ample
fuel. -/
def deployEntries (moduleRepo : List (String × List String)) (declared : List String) :
    Nat → List (String × PipeVal) → Option Nat → Option Nat → DeployState →
    Except (PyErr × DeployState) DeployState
  | _, [], _, _, st => .ok st
  | 0, _ :: _, _, _, st => .ok st
  | fuel + 1, (key, val) :: rest, source, outVar, st =>
    let step : Except (PyErr × DeployState) (DeployState × Option Nat) :=
      if key ∈ declared then
        let r := repoGetStream st none (some key)
        .ok (r.1, some r.2)
      else
        let p := placeOperator moduleRepo st key
        match source with
        | none => .ok (p.1, outVar)
        | some srcIdx =>
          let r := repoGetStream p.1 none none
          match connectToOperator r.1 srcIdx p.2 r.2 with
          | .error e => .error e
          | .ok st' => .ok (st', some r.2)
    match step with
    | .error e => .error e
    | .ok (st₁, outVar') =>
      let afterDest : Except (PyErr × DeployState) DeployState :=
        match val with
        | .dict entries =>
          match outVar' with
          | none => .error (.unboundLocal, st₁)
          | some o => deployEntries moduleRepo declared fuel entries (some o) none st₁
        | .leaves sels => connectLeaves declared outVar' sels st₁
      match afterDest with
      | .error e => .error e
      | .ok st₂ => deployEntries moduleRepo declared fuel rest source outVar' st₂

/-- C7. The claim says a missing operator name only logs a warning and the
deployment completes with that branch unwired. place_operator does return
None after a warning, but deploy_pipelines passes the None straight on: with
a source stream the None operator is recorded as a fork on the source and
connect_to_operator raises AttributeError, and without a source a nested
mapping raises on the unbound output_stream. Deploying streams in, out with
pipelines in to Missing to out on an empty module repository aborts with
AttributeError, leaving the fork pair of None and the fresh stream on the
stream in. -/
theorem c7_missing_operator_aborts_deployment :
    deployEntries [] ["in", "out"] 3
        [("in", PipeVal.dict [("Missing", PipeVal.leaves ["out"])])] none none
        ⟨[⟨"in-id", some "in", [], [], []⟩, ⟨"out-id", some "out", [], [], []⟩], [], 0, 0⟩ =
      .error (.attributeError,
        ⟨[⟨"in-id", some "in", [], [(none, 2)], []⟩, ⟨"out-id", some "out", [], [], []⟩,
          ⟨"uuid-0", none, [], [], []⟩], [], 0, 1⟩) ∧
    deployEntries [] ["out"] 2 [("Missing", PipeVal.dict [])] none none ⟨[], [], 0, 0⟩ =
      .error (.unboundLocal, ⟨[], [], 0, 0⟩) :=
  ⟨rfl, rfl⟩

end SparseFramework
